import Mathlib

/-!
Verification development for the blob-army arcade runner's rendering and
collision core (`src/js/01C`).  The JavaScript is shallowly embedded over `ℚ`
(JS numbers carry exact rational values on every input we reason about); the
camera's trigonometric coefficients `Math.cos`/`Math.sin` of the pitch are
carried as explicit fields of the camera pose, precomputed exactly as
`Projection.js` computes them once per call.
-/

namespace BlobArmy

/-! ### Projection.js -/

/-- Camera pose snapshot as returned by `Camera.getPosition()` and consumed by
`project`.  `cosA`/`sinA` stand for `Math.cos(angle * π / 180)` and
`Math.sin(angle * π / 180)` of the pitch angle, the only use `project` makes of
the angle. -/
structure CameraPose where
  x : ℚ
  y : ℚ
  z : ℚ
  cosA : ℚ
  sinA : ℚ
  deriving DecidableEq

/-- Result record of `project`: `{x: screenX, y: screenY, depth, scale}`. -/
structure Projected where
  x : ℚ
  y : ℚ
  depth : ℚ
  scale : ℚ
  deriving DecidableEq

/-- `const perspectiveDistance = 400` in `project`. -/
def perspectiveDistance : ℚ := 400

/-- The rotated Z coordinate computed inside `project`:
`rotatedZ = relY * sinAngle + relZ * cosAngle` with `relY = -(y - camera.y)`
and `relZ = z - camera.z`. -/
def rotatedZOf (_x y z : ℚ) (cam : CameraPose) : ℚ :=
  (-(y - cam.y)) * cam.sinA + (z - cam.z) * cam.cosA

/-- The clamped perspective divisor of `project`:
`effectiveZ = Math.max(rotatedZ, 1)`. -/
def effectiveZOf (x y z : ℚ) (cam : CameraPose) : ℚ :=
  max (rotatedZOf x y z cam) 1

/-- `project(x, y, z, camera)` from `Projection.js`: translate into
camera-relative space, rotate `(relY, relZ)` by the pitch, perspective-divide
by the clamped rotated depth, and return screen coordinates together with the
camera-relative depth `relZ` and the scale factor. -/
def project (x y z : ℚ) (cam : CameraPose) : Projected :=
  let relX := x - cam.x
  let relY := -(y - cam.y)
  let relZ := z - cam.z
  let rotatedY := relY * cam.cosA - relZ * cam.sinA
  let scale := perspectiveDistance / effectiveZOf x y z cam
  { x := relX * scale
    y := -rotatedY * scale
    depth := relZ
    scale := scale }

theorem project_scale_def (x y z : ℚ) (cam : CameraPose) :
    (project x y z cam).scale = perspectiveDistance / effectiveZOf x y z cam := rfl

theorem project_depth_def (x y z : ℚ) (cam : CameraPose) :
    (project x y z cam).depth = z - cam.z := rfl

theorem one_le_effectiveZ (x y z : ℚ) (cam : CameraPose) :
    1 ≤ effectiveZOf x y z cam :=
  le_max_right _ _

/-! ### Renderer.js (two-pass variant)

`render()` purges deleted entities, draws the single `Track` entity found by
`entities.find(e => e.constructor.name === 'Track')` as PASS 1, then filters
the non-track entities, sorts them in place with the comparator
`(a, b) => b.z - a.z` (a stable sort in JS engines, descending in `z`), and
draws them in order as PASS 2.  For draw-order reasoning each entity is
abstracted to its constructor kind, world `z`, and `markedForDeletion` flag,
the only data `render` consults. -/

/-- The `constructor.name` tag `render` dispatches on. -/
inductive EntityKind where
  | track
  | player
  | gate
  | enemy
  | bullet
  deriving DecidableEq

/-- The view of an entity that `Renderer.render` reads: its constructor kind,
its world `z`, and the `markedForDeletion` flag behind `shouldDelete()`. -/
structure REntity where
  kind : EntityKind
  z : ℚ
  markedForDeletion : Bool
  deriving DecidableEq

/-- `shouldDelete()` from `Entity3D.js`: returns `markedForDeletion`. -/
def REntity.shouldDelete (e : REntity) : Bool := e.markedForDeletion

/-- The JS comparator `(a, b) => b.z - a.z` as an ordering relation: `a` may be
drawn no later than `b` exactly when the comparator is `≤ 0`, i.e.
`b.z ≤ a.z`. -/
def zDesc (a b : REntity) : Prop := b.z ≤ a.z

instance : DecidableRel zDesc := fun a b => inferInstanceAs (Decidable (b.z ≤ a.z))

instance : IsTotal REntity zDesc := ⟨fun a b => le_total b.z a.z⟩

instance : IsTrans REntity zDesc := ⟨fun _ _ _ hab hbc => le_trans hbc hab⟩

/-- `this.entities = this.entities.filter(entity => !entity.shouldDelete())`. -/
def purge (es : List REntity) : List REntity :=
  es.filter (fun e => !e.shouldDelete)

/-- PASS 1: the track found by
`this.entities.find(e => e.constructor.name === 'Track')`, drawn first when
present (as a draw list: one element or empty). -/
def trackPass (purged : List REntity) : List REntity :=
  (purged.find? (fun e => e.kind = EntityKind.track)).toList

/-- PASS 2: `entities.filter(e => e.constructor.name !== 'Track')` sorted by
the stable descending-`z` comparator `(a, b) => b.z - a.z`. -/
def gamePass (purged : List REntity) : List REntity :=
  List.insertionSort zDesc (purged.filter (fun e => !(e.kind = EntityKind.track)))

/-- The full draw order of one `render()` call on entity list `es`:
purge, then PASS 1 (track), then PASS 2 (depth-sorted game entities). -/
def renderDraws (es : List REntity) : List REntity :=
  trackPass (purge es) ++ gamePass (purge es)

/-! ### Player.js (swarm variant) -/

/-- The fields of a swarm blob that collision code reads: its lagged world
position `currentX`/`currentZ` and its `sizeMultiplier`. -/
structure SwarmBlob where
  currentX : ℚ
  currentZ : ℚ
  sizeMultiplier : ℚ
  deriving DecidableEq

/-- The player state that collision and effect code touches: the center
position `x`/`y`/`z`, the numeric `blobCount`, and the swarm positions. -/
structure Player where
  x : ℚ
  y : ℚ
  z : ℚ
  blobCount : ℚ
  swarmBlobs : List SwarmBlob
  deriving DecidableEq

/-- `Player.addBlobs(count)`: `this.blobCount += count; if (this.blobCount < 0)
this.blobCount = 0;`. -/
def Player.addBlobs (p : Player) (count : ℚ) : Player :=
  let c := p.blobCount + count
  { p with blobCount := if c < 0 then 0 else c }

/-- `GameParameters.PLAYER_MOVEMENT_SPEED`. -/
def PLAYER_MOVEMENT_SPEED : ℚ := 300

/-- `GameParameters.TRACK_WIDTH`. -/
def TRACK_WIDTH : ℚ := 400

/-- The movement direction computed in `Player.update`:
`let moveDirection = 0; if (left) moveDirection -= 1; if (right)
moveDirection += 1;`. -/
def moveDirection (left right : Bool) : ℚ :=
  (if left then (0 : ℚ) - 1 else 0) + (if right then 1 else 0)

/-- The lateral-movement portion of `Player.update` (lines 255-269): if there
is no input manager the update returns early; otherwise, when the movement
direction is non-zero, `x += moveDirection * moveSpeed * deltaTime` followed by
`x = Math.max(minX, Math.min(maxX, x))` against the track boundaries. -/
def playerUpdateX (x : ℚ) (hasInput left right : Bool) (deltaTime : ℚ) : ℚ :=
  if !hasInput then x
  else
    let d := moveDirection left right
    if d ≠ 0 then
      let moved := x + d * PLAYER_MOVEMENT_SPEED * deltaTime
      max (-(TRACK_WIDTH / 2)) (min (TRACK_WIDTH / 2) moved)
    else x

/-! ### Gate.js (consumable health-gated variant) -/

/-- The `type` field of a gate: `'addition'` or `'multiplication'`. -/
inductive GateType where
  | addition
  | multiplication
  deriving DecidableEq

/-- The gate state read by `checkCollision` and `applyEffect`: position,
width (`GameParameters.GATE_WIDTH` at construction), numeric `value`, `type`,
the one-shot `consumed` flag, and the bullet-damage `health` pool. -/
structure Gate where
  x : ℚ
  z : ℚ
  width : ℚ
  value : ℚ
  type : GateType
  consumed : Bool
  health : ℚ
  deriving DecidableEq

/-- `Gate.checkCollision(player)`: `false` when already consumed; otherwise an
axis-aligned world-space box test, first on the player's center
(`|player.z - gate.z| < gateDepth` and `x` within the lateral half-width),
then the same box test on each swarm blob's `currentX`/`currentZ` as a
fallback.  `gateDepth = 10`. -/
def Gate.checkCollision (g : Gate) (p : Player) : Bool :=
  if g.consumed then false
  else
    let halfWidth := g.width / 2
    let gateDepth : ℚ := 10
    if |p.z - g.z| < gateDepth ∧ g.x - halfWidth ≤ p.x ∧ p.x ≤ g.x + halfWidth then
      true
    else
      p.swarmBlobs.any fun blob =>
        |blob.currentZ - g.z| < gateDepth ∧
          g.x - halfWidth ≤ blob.currentX ∧ blob.currentX ≤ g.x + halfWidth

/-- `Gate.applyEffect(player)`: a no-op unless the gate's health is depleted
and it has not yet been consumed; then either `player.blobCount =
Math.floor(oldCount * value)` (multiplication) or
`player.addBlobs(Math.floor(value))` (addition), and `consumed` flips to
`true`.  Returns the updated gate and player. -/
def Gate.applyEffect (g : Gate) (p : Player) : Gate × Player :=
  if g.consumed ∨ g.health > 0 then (g, p)
  else
    let p' :=
      match g.type with
      | GateType.multiplication => { p with blobCount := (⌊p.blobCount * g.value⌋ : ℤ) }
      | GateType.addition => p.addBlobs ((⌊g.value⌋ : ℤ) : ℚ)
    ({ g with consumed := true }, p')

/-! ### Enemy.js -/

/-- Extracted sprite pixel data (`ImageData`): dimensions plus the alpha
channel, abstracted as the function `x y ↦ data[(y * width + x) * 4 + 3]`. -/
structure PixelData where
  width : ℕ
  height : ℕ
  alpha : ℕ → ℕ → ℕ

/-- Enemy state read by drawing and collision: position, the one-shot
`consumed` flag set by `neutralize()`, the sprite's extracted pixel data when
loaded (`spritePixelData`, whose dimensions equal the sprite sheet's), and the
display constants (`spriteDisplaySize = 120`, `spriteHeightMultiplier = 1`). -/
structure Enemy where
  x : ℚ
  y : ℚ
  z : ℚ
  consumed : Bool
  spritePixelData : Option PixelData
  spriteDisplaySize : ℚ
  spriteHeightMultiplier : ℚ

/-- Iteration count of the JS loop `for (let v = lo; v < hi; v += step)` with
`step > 0`: the least `n` with `lo + n * step ≥ hi`. -/
def sampleCount (lo hi step : ℚ) : ℕ :=
  (⌈(hi - lo) / step⌉ : ℤ).toNat

/-- One alpha-mask sample of `Enemy.checkBlobCollision` at screen point
`(screenX, screenY)`: map the point into each sprite's pixel grid by
`Math.floor` of the UV coordinates, bounds-check against the pixel data, and
report whether both sampled alphas exceed the threshold 128. -/
def alphaSampleHit (epd bpd : PixelData)
    (enemyLeft enemyTop enemyWidth enemyHeight blobLeft blobTop blobWidth blobHeight
      screenX screenY : ℚ) : Bool :=
  let enemyU := (screenX - enemyLeft) / enemyWidth
  let enemyV := (screenY - enemyTop) / enemyHeight
  let enemySpriteX := ⌊enemyU * (epd.width : ℚ)⌋
  let enemySpriteY := ⌊enemyV * (epd.height : ℚ)⌋
  let blobU := (screenX - blobLeft) / blobWidth
  let blobV := (screenY - blobTop) / blobHeight
  let blobSpriteX := ⌊blobU * (bpd.width : ℚ)⌋
  let blobSpriteY := ⌊blobV * (bpd.height : ℚ)⌋
  let alphaThreshold : ℕ := 128
  if 0 ≤ enemySpriteX ∧ enemySpriteX < (epd.width : ℤ) ∧
      0 ≤ enemySpriteY ∧ enemySpriteY < (epd.height : ℤ) then
    if 0 ≤ blobSpriteX ∧ blobSpriteX < (bpd.width : ℤ) ∧
        0 ≤ blobSpriteY ∧ blobSpriteY < (bpd.height : ℤ) then
      let enemyAlpha := epd.alpha enemySpriteX.toNat enemySpriteY.toNat
      let blobAlpha := bpd.alpha blobSpriteX.toNat blobSpriteY.toNat
      alphaThreshold < enemyAlpha ∧ alphaThreshold < blobAlpha
    else false
  else false

/-- `Enemy.checkBlobCollision(blob, playerY, camera, blobPixelData)`: `false`
when the enemy is consumed or either sprite's pixel data is missing; otherwise
project both sprites, reject when their screen-space AABBs do not overlap, and
finally scan the overlap rectangle at stride `sampleStep = 2`, reporting a hit
when some sample finds both alphas above the threshold. -/
def Enemy.checkBlobCollision (e : Enemy) (blob : SwarmBlob) (playerY : ℚ)
    (cam : CameraPose) (blobPixelData : Option PixelData) : Bool :=
  if e.consumed then false
  else
    match e.spritePixelData, blobPixelData with
    | some epd, some bpd =>
      let enemyProjected := project e.x e.y e.z cam
      let blobProjected := project blob.currentX playerY blob.currentZ cam
      let enemyWidth := e.spriteDisplaySize * enemyProjected.scale
      let enemyHeight := e.spriteDisplaySize * enemyProjected.scale * e.spriteHeightMultiplier
      let enemyLeft := enemyProjected.x - enemyWidth / 2
      let enemyRight := enemyProjected.x + enemyWidth / 2
      let enemyTop := enemyProjected.y - enemyHeight / 2
      let enemyBottom := enemyProjected.y + enemyHeight / 2
      let blobWidth := 72 * blobProjected.scale * blob.sizeMultiplier
      let blobHeight := 72 * blobProjected.scale * blob.sizeMultiplier * (1 / 2)
      let blobLeft := blobProjected.x - blobWidth / 2
      let blobRight := blobProjected.x + blobWidth / 2
      let blobTop := blobProjected.y - blobHeight / 2
      let blobBottom := blobProjected.y + blobHeight / 2
      let aabbColliding := ¬(enemyRight < blobLeft ∨ enemyLeft > blobRight ∨
        enemyBottom < blobTop ∨ enemyTop > blobBottom)
      if ¬aabbColliding then false
      else
        let overlapLeft := max enemyLeft blobLeft
        let overlapRight := min enemyRight blobRight
        let overlapTop := max enemyTop blobTop
        let overlapBottom := min enemyBottom blobBottom
        let sampleStep : ℚ := 2
        (List.range (sampleCount overlapTop overlapBottom sampleStep)).any fun yi =>
          let screenY := overlapTop + sampleStep * yi
          (List.range (sampleCount overlapLeft overlapRight sampleStep)).any fun xi =>
            let screenX := overlapLeft + sampleStep * xi
            alphaSampleHit epd bpd enemyLeft enemyTop enemyWidth enemyHeight
              blobLeft blobTop blobWidth blobHeight screenX screenY
    | _, _ => false

/-- `Enemy.neutralize()`: sets the one-shot `consumed` flag. -/
def Enemy.neutralize (e : Enemy) : Enemy := { e with consumed := true }

/-- `Enemy.isNeutralized()`: returns `consumed`. -/
def Enemy.isNeutralized (e : Enemy) : Bool := e.consumed

/-! ### Track.js (v3.0 marker-queue variant) -/

/-- `GameParameters.METERS_PER_PIXEL`. -/
def METERS_PER_PIXEL : ℚ := 1 / 100

/-- Track state: the marker-queue configuration fixed by the constructor, the
FIFO queue of marker Z positions, the next Z to push, and the
one-shot initialization flag (`this.initialized` in the source). -/
structure Track where
  maxMarkers : ℕ
  markerInterval : ℚ
  cleanupDistance : ℚ
  markerQueue : List ℚ
  nextMarkerZ : ℚ
  inited : Bool
  deriving DecidableEq

/-- The `Track` constructor: 50 markers, interval `1 / METERS_PER_PIXEL`
(100 world units), cleanup distance `5 / METERS_PER_PIXEL` (500 world units),
empty queue, uninitialized. -/
def trackNew : Track :=
  { maxMarkers := 50
    markerInterval := 1 / METERS_PER_PIXEL
    cleanupDistance := 5 / METERS_PER_PIXEL
    markerQueue := []
    nextMarkerZ := 0
    inited := false }

/-- The seeding loop of `initializeMarkers`: starting from `nextMarkerZ = nz`,
push `n` markers, advancing `nextMarkerZ` by `interval` after each push.
Returns the pushed markers (in order) and the final `nextMarkerZ`. -/
def spawnMarkers (n : ℕ) (nz interval : ℚ) : List ℚ × ℚ :=
  match n with
  | 0 => ([], nz)
  | Nat.succ m =>
      let rest := spawnMarkers m (nz + interval) interval
      (nz :: rest.1, rest.2)

/-- `Track.initializeMarkers(playerZ)` (named `initMarkers` here): set
`nextMarkerZ = Math.floor(playerZ / markerInterval) * markerInterval -
5 * markerInterval`, then push `maxMarkers` markers spaced `markerInterval`
apart. -/
def Track.initMarkers (t : Track) (playerZ : ℚ) : Track :=
  let start := ((⌊playerZ / t.markerInterval⌋ : ℤ) : ℚ) * t.markerInterval
    - 5 * t.markerInterval
  let sp := spawnMarkers t.maxMarkers start t.markerInterval
  { t with markerQueue := t.markerQueue ++ sp.1, nextMarkerZ := sp.2 }

/-- `Track.updateMarkerQueue(playerZ)`: no-op on an empty queue; otherwise,
when the oldest marker has fallen more than `cleanupDistance` behind the
player, shift it off and push `nextMarkerZ`, advancing `nextMarkerZ` by
`markerInterval`. -/
def Track.updateMarkerQueue (t : Track) (playerZ : ℚ) : Track :=
  match t.markerQueue with
  | [] => t
  | oldest :: rest =>
      if playerZ - oldest > t.cleanupDistance then
        { t with
            markerQueue := rest ++ [t.nextMarkerZ]
            nextMarkerZ := t.nextMarkerZ + t.markerInterval }
      else t

/-- `Track.update(deltaTime, gameState)`: return unchanged when no player is
available; otherwise seed the queue on the first such update, then run the
per-frame queue maintenance. -/
def Track.update (t : Track) (playerZ? : Option ℚ) : Track :=
  match playerZ? with
  | none => t
  | some pz =>
      let t1 := if t.inited then t else { t.initMarkers pz with inited := true }
      t1.updateMarkerQueue pz

/-- Fold a sequence of per-frame updates over a track. -/
def trackUpdates (t : Track) (pzs : List (Option ℚ)) : Track :=
  pzs.foldl Track.update t

/-- The arithmetic progression `[s, s + i, ..., s + (n-1) * i]`. -/
def arithList (s i : ℚ) : ℕ → List ℚ
  | 0 => []
  | Nat.succ n => s :: arithList (s + i) i n

theorem arithList_length (i : ℚ) : ∀ (n : ℕ) (s : ℚ), (arithList s i n).length = n := by
  intro n
  induction n with
  | zero => intro s; rfl
  | succ m ih => intro s; simpa [arithList] using ih (s + i)

theorem arithList_concat (i : ℚ) :
    ∀ (n : ℕ) (s : ℚ), arithList s i n ++ [s + n * i] = arithList s i (n + 1) := by
  intro n
  induction n with
  | zero => intro s; simp [arithList]
  | succ m ih =>
      intro s
      have harith : s + ((m : ℚ) + 1) * i = s + i + (m : ℚ) * i := by ring
      show (s :: arithList (s + i) i m) ++ [s + ((m + 1 : ℕ) : ℚ) * i] =
        arithList s i (m + 1 + 1)
      push_cast
      rw [harith, List.cons_append, ih (s + i)]
      rfl

theorem arithList_chain (i : ℚ) :
    ∀ (n : ℕ) (s : ℚ), List.Chain' (fun a b => b = a + i) (arithList s i n) := by
  intro n
  induction n with
  | zero => intro s; simp [arithList]
  | succ m ih =>
      intro s
      cases m with
      | zero => simp [arithList]
      | succ k =>
          refine List.chain'_cons.mpr ⟨rfl, ?_⟩
          exact ih (s + i)

theorem arithList_getLast (i : ℚ) (n : ℕ) (s : ℚ) :
    (arithList s i (n + 1)).getLast? = some (s + n * i) := by
  rw [← arithList_concat]
  exact List.getLast?_concat _

theorem spawnMarkers_eq (i : ℚ) :
    ∀ (n : ℕ) (s : ℚ), spawnMarkers n s i = (arithList s i n, s + n * i) := by
  intro n
  induction n with
  | zero => intro s; simp [spawnMarkers, arithList]
  | succ m ih =>
      intro s
      have harith : (s + i) + (m : ℕ) * i = s + (m + 1 : ℕ) * i := by
        push_cast; ring
      simp [spawnMarkers, arithList, ih (s + i), harith]

/-- The inductive invariant maintained from the first player-supplied update
on: the track keeps its constructed configuration, is initialized, and holds
exactly 50 markers forming an arithmetic progression at interval 100, with
`nextMarkerZ` one interval past the youngest marker. -/
def Track.good (t : Track) : Prop :=
  t.inited = true ∧ t.maxMarkers = 50 ∧ t.markerInterval = 100 ∧
    t.cleanupDistance = 500 ∧
    ∃ s, t.markerQueue = arithList s 100 50 ∧ t.nextMarkerZ = s + 5000

theorem updateMarkerQueue_good {t : Track} (hg : t.good) (pz : ℚ) :
    (t.updateMarkerQueue pz).good := by
  obtain ⟨hin, hmax, hint, hclean, s, hq, hn⟩ := hg
  have hq' : t.markerQueue = s :: arithList (s + 100) 100 49 := by
    simpa [arithList] using hq
  by_cases hpop : pz - s > t.cleanupDistance
  · have hstep : t.updateMarkerQueue pz =
        { t with markerQueue := arithList (s + 100) 100 49 ++ [t.nextMarkerZ]
                 nextMarkerZ := t.nextMarkerZ + t.markerInterval } := by
      unfold Track.updateMarkerQueue
      rw [hq']
      simp [hpop]
    refine ⟨by simpa [hstep] using hin, by simpa [hstep] using hmax,
      by simpa [hstep] using hint, by simpa [hstep] using hclean, s + 100, ?_, ?_⟩
    · have hlast : (s + 100) + (49 : ℕ) * 100 = s + 5000 := by push_cast; ring
      rw [hstep]
      show arithList (s + 100) 100 49 ++ [t.nextMarkerZ] = arithList (s + 100) 100 50
      rw [hn, ← hlast, arithList_concat]
    · rw [hstep]
      show t.nextMarkerZ + t.markerInterval = (s + 100) + 5000
      rw [hn, hint]; ring
  · have hstep : t.updateMarkerQueue pz = t := by
      unfold Track.updateMarkerQueue
      rw [hq']
      simp [hpop]
    rw [hstep]
    exact ⟨hin, hmax, hint, hclean, s, hq, hn⟩

theorem update_good {t : Track} (hg : t.good) (pz? : Option ℚ) :
    (t.update pz?).good := by
  cases pz? with
  | none => exact hg
  | some pz =>
      have hin : t.inited = true := hg.1
      show ((if t.inited then t else _).updateMarkerQueue pz).good
      rw [hin]
      simpa using updateMarkerQueue_good hg pz

theorem first_update_good (pz0 : ℚ) : (trackNew.update (some pz0)).good := by
  have h1 : trackNew.markerInterval = 100 := by norm_num [trackNew, METERS_PER_PIXEL]
  have h2 : trackNew.cleanupDistance = 500 := by norm_num [trackNew, METERS_PER_PIXEL]
  have hgood : ({ trackNew.initMarkers pz0 with inited := true } : Track).good := by
    refine ⟨rfl, rfl, h1, h2, ((⌊pz0 / 100⌋ : ℤ) : ℚ) * 100 - 500, ?_, ?_⟩
    · show trackNew.markerQueue ++
        (spawnMarkers trackNew.maxMarkers
          (((⌊pz0 / trackNew.markerInterval⌋ : ℤ) : ℚ) * trackNew.markerInterval
            - 5 * trackNew.markerInterval) trackNew.markerInterval).1 = _
      rw [h1, spawnMarkers_eq]
      show [] ++ arithList (((⌊pz0 / 100⌋ : ℤ) : ℚ) * 100 - 5 * 100) 100 50 = _
      norm_num
    · show (spawnMarkers trackNew.maxMarkers
          (((⌊pz0 / trackNew.markerInterval⌋ : ℤ) : ℚ) * trackNew.markerInterval
            - 5 * trackNew.markerInterval) trackNew.markerInterval).2 = _
      rw [h1, spawnMarkers_eq]
      norm_num [trackNew]
  exact updateMarkerQueue_good hgood pz0

theorem trackUpdates_good {t : Track} (hg : t.good) (pzs : List (Option ℚ)) :
    (trackUpdates t pzs).good := by
  induction pzs generalizing t with
  | nil => exact hg
  | cons p ps ih => exact ih (update_good hg p)

/-! ### Shared concrete fixtures -/

/-- A valid camera pose at the origin whose pitch has `cos = 3/5`,
`sin = 4/5` (a pitch of about 53°, inside the `[1°, 89°]` clamp). -/
def camDemo : CameraPose := { x := 0, y := 0, z := 0, cosA := 3 / 5, sinA := 4 / 5 }

/-- A player with 5 blobs at the origin, used as a concrete effect target. -/
def player5 : Player := { x := 0, y := 1 / 2, z := 0, blobCount := 5, swarmBlobs := [] }

/-! ### Claim theorems -/

/-- C1, counterexample: with the valid pose `camDemo` and the fixed world
point column `(x, y) = (0, 0)`, increasing `z` from `0` to `1` does NOT
strictly decrease the returned scale — both rotated depths fall below the
clamp threshold `1`, so both scales equal `400`. -/
theorem C1_counterexample :
    ¬ (project 0 0 1 camDemo).scale < (project 0 0 0 camDemo).scale := by
  have h1 : (project 0 0 1 camDemo).scale = 400 := by
    show perspectiveDistance / effectiveZOf 0 0 1 camDemo = 400
    have hr : rotatedZOf 0 0 1 camDemo = 3 / 5 := by norm_num [rotatedZOf, camDemo]
    rw [effectiveZOf, hr, max_eq_right (by norm_num : (3 : ℚ) / 5 ≤ 1)]
    norm_num [perspectiveDistance]
  have h0 : (project 0 0 0 camDemo).scale = 400 := by
    show perspectiveDistance / effectiveZOf 0 0 0 camDemo = 400
    have hr : rotatedZOf 0 0 0 camDemo = 0 := by norm_num [rotatedZOf, camDemo]
    rw [effectiveZOf, hr, max_eq_right (by norm_num : (0 : ℚ) ≤ 1)]
    norm_num [perspectiveDistance]
  rw [h1, h0]
  exact lt_irrefl _

/-- C1 (amended): for a fixed camera pose whose pitch cosine is positive (true
of every pose inside the `[1°, 89°]` clamp) and fixed `(x, y)`, increasing `z`
strictly increases the returned depth unconditionally (also inside the clamp
region), and strictly decreases the returned scale provided the nearer point's
rotated depth is at least the clamp threshold `1` (i.e. the
`effectiveZ = max(rotatedZ, 1)` clamp is not active); inside the clamp region
the scale is constant at `400`. -/
theorem C1_project_monotone_in_z (cam : CameraPose) (x y z1 z2 : ℚ)
    (hcos : 0 < cam.cosA) (hz : z1 < z2) :
    (project x y z1 cam).depth < (project x y z2 cam).depth ∧
      (1 ≤ rotatedZOf x y z1 cam →
        (project x y z2 cam).scale < (project x y z1 cam).scale) := by
  have key : rotatedZOf x y z2 cam - rotatedZOf x y z1 cam = (z2 - z1) * cam.cosA := by
    unfold rotatedZOf; ring
  have hlt : rotatedZOf x y z1 cam < rotatedZOf x y z2 cam := by
    have hp : 0 < (z2 - z1) * cam.cosA := mul_pos (sub_pos.mpr hz) hcos
    linarith
  constructor
  · show z1 - cam.z < z2 - cam.z
    linarith
  · intro hfront
    have h1 : effectiveZOf x y z1 cam = rotatedZOf x y z1 cam :=
      max_eq_left hfront
    have h2 : effectiveZOf x y z2 cam = rotatedZOf x y z2 cam :=
      max_eq_left (le_trans hfront (le_of_lt hlt))
    show perspectiveDistance / effectiveZOf x y z2 cam <
      perspectiveDistance / effectiveZOf x y z1 cam
    rw [h1, h2]
    have hpos1 : (0 : ℚ) < rotatedZOf x y z1 cam := lt_of_lt_of_le one_pos hfront
    exact div_lt_div_of_pos_left (by norm_num [perspectiveDistance]) hpos1 hlt

/-- Witness for C1 at the concrete pose `camDemo`, `(x, y) = (0, 0)`,
`z1 = 2 < z2 = 3` (rotated depth of the nearer point is `6/5 ≥ 1`). -/
theorem C1_witness :
    (0 : ℚ) < camDemo.cosA ∧ (2 : ℚ) < 3 ∧ 1 ≤ rotatedZOf 0 0 2 camDemo ∧
      ((project 0 0 2 camDemo).depth < (project 0 0 3 camDemo).depth ∧
        (project 0 0 3 camDemo).scale < (project 0 0 2 camDemo).scale) :=
  ⟨by norm_num [camDemo], by norm_num, by norm_num [rotatedZOf, camDemo],
    (C1_project_monotone_in_z camDemo 0 0 2 3 (by norm_num [camDemo]) (by norm_num)).1,
    (C1_project_monotone_in_z camDemo 0 0 2 3 (by norm_num [camDemo]) (by norm_num)).2
      (by norm_num [rotatedZOf, camDemo])⟩

/-- C7: with the camera at `(0, 280, -133)` and any pitch trigonometry (in
particular the 15° pitch of `GameParameters.CAMERA_ANGLE`), `project` applied
to the world point `(0, 0, 1000)` returns depth exactly
`1133 = worldZ - cameraZ` and a strictly positive scale; over `ℚ` every
returned component is a finite number. -/
theorem C7_scenario_B (cosA sinA : ℚ) :
    (project 0 0 1000 { x := 0, y := 280, z := -133, cosA := cosA, sinA := sinA }).depth
        = 1133 ∧
      0 < (project 0 0 1000
        { x := 0, y := 280, z := -133, cosA := cosA, sinA := sinA }).scale := by
  constructor
  · show (1000 : ℚ) - (-133) = 1133
    norm_num
  · show 0 < perspectiveDistance /
      effectiveZOf 0 0 1000 { x := 0, y := 280, z := -133, cosA := cosA, sinA := sinA }
    exact div_pos (by norm_num [perspectiveDistance])
      (lt_of_lt_of_le one_pos (one_le_effectiveZ _ _ _ _))

/-- C8, counterexample: there is no uniform positive floor below the returned
scale — for any candidate floor `f > 0` a sufficiently distant world point
(here, in front of the valid pose with `cos = 3/5`, `sin = 4/5`) yields
`scale = 400 / rotatedZ < f`.  The clamp bounds the scale above by `400`, not
below by a positive constant. -/
theorem C8_counterexample :
    ¬ ∃ f : ℚ, 0 < f ∧ ∀ x y z cx cy cz cA sA : ℚ,
        f ≤ (project x y z { x := cx, y := cy, z := cz, cosA := cA, sinA := sA }).scale := by
  rintro ⟨f, hf, hall⟩
  set w : ℚ := 800 / f + 800 with hw
  have hwpos : 0 < 800 / f := by positivity
  have hw1 : (1 : ℚ) ≤ w := by rw [hw]; linarith
  have h := hall 0 0 ((5 / 3) * w) 0 0 0 (3 / 5) (4 / 5)
  have hrot : rotatedZOf 0 0 ((5 / 3) * w)
      { x := 0, y := 0, z := 0, cosA := 3 / 5, sinA := 4 / 5 } = w := by
    unfold rotatedZOf
    ring
  have hsc : (project 0 0 ((5 / 3) * w)
      { x := 0, y := 0, z := 0, cosA := 3 / 5, sinA := 4 / 5 }).scale = 400 / w := by
    show perspectiveDistance / effectiveZOf 0 0 ((5 / 3) * w)
      { x := 0, y := 0, z := 0, cosA := 3 / 5, sinA := 4 / 5 } = 400 / w
    rw [effectiveZOf, hrot, max_eq_left hw1]
    norm_num [perspectiveDistance]
  rw [hsc] at h
  have hfw : f * w = 800 + 800 * f := by
    rw [hw]
    field_simp
  have hwp : (0 : ℚ) < w := lt_of_lt_of_le one_pos hw1
  have hlt : 400 / w < f := by
    rw [div_lt_iff₀ hwp]
    nlinarith
  linarith

/-- C8 (amended): for every input to `project` the returned scale is strictly
positive and at most `400`; the perspective divisor is the clamped
`effectiveZ = max(rotatedZ, 1) ≥ 1`, so world points at or behind the camera
never cause a division by zero or a non-finite result; there is, however, no
uniform positive lower bound on the scale (see the counterexample). -/
theorem C8_scale_positive_clamped (x y z : ℚ) (cam : CameraPose) :
    0 < (project x y z cam).scale ∧ (project x y z cam).scale ≤ 400 ∧
      1 ≤ effectiveZOf x y z cam := by
  have h1 : 1 ≤ effectiveZOf x y z cam := one_le_effectiveZ x y z cam
  have hpos : 0 < effectiveZOf x y z cam := lt_of_lt_of_le one_pos h1
  refine ⟨div_pos (by norm_num [perspectiveDistance]) hpos, ?_, h1⟩
  show perspectiveDistance / effectiveZOf x y z cam ≤ 400
  rw [div_le_iff₀ hpos]
  have : (perspectiveDistance : ℚ) = 400 := by norm_num [perspectiveDistance]
  nlinarith

/-- Purging an already purged entity list changes nothing: `filter` against
`shouldDelete` is idempotent. -/
theorem purge_idem (es : List REntity) : purge (purge es) = purge es :=
  List.filter_eq_self.mpr fun _ ha => (List.mem_filter.mp ha).2

/-- Non-track game entity at world Z = 10. -/
def entPlayer10 : REntity := { kind := EntityKind.player, z := 10, markedForDeletion := false }

/-- Non-track game entity at world Z = 5. -/
def entGate5 : REntity := { kind := EntityKind.gate, z := 5, markedForDeletion := false }

/-- Non-track game entity at world Z = 20. -/
def entGate20 : REntity := { kind := EntityKind.gate, z := 20, markedForDeletion := false }

/-- A track entity. -/
def entTrack : REntity := { kind := EntityKind.track, z := 0, markedForDeletion := false }

/-- C2: `Renderer.render` draws the non-Track entities in descending world-Z
order (camera-relative and absolute orderings coincide): for entities at
Z = {10, 5, 20} (plus the Track) the PASS-2 draw order is [20, 10, 5]; the
PASS-2 list is always sorted by the descending-`z` comparator; and the draw
order is a pure function of the entity list, so repeated `render` calls with
identical input — in particular the very next frame, whose entity list is the
purged list stored by the previous call — produce the identical order, even
for near-tied Z values. -/
theorem C2_depth_sort_order :
    ((gamePass (purge [entPlayer10, entGate5, entTrack, entGate20])).map REntity.z
        = [20, 10, 5]) ∧
      (∀ es : List REntity, (gamePass es).Sorted zDesc) ∧
      (∀ es : List REntity, renderDraws (purge es) = renderDraws es) := by
  refine ⟨?_, ?_, ?_⟩
  · decide
  · intro es
    exact List.sorted_insertionSort zDesc _
  · intro es
    unfold renderDraws
    rw [purge_idem]

/-- C9: in every `render` call the Track is never part of the depth-sorted
PASS-2 list, every entity drawn in PASS 1 is a Track, and the full draw
sequence is exactly PASS 1 followed by PASS 2 — so the Track is always drawn
before any non-Track entity, regardless of Z values. -/
theorem C9_track_never_depth_sorted (es : List REntity) :
    (∀ e, e ∈ gamePass (purge es) → e.kind ≠ EntityKind.track) ∧
      (∀ e, e ∈ trackPass (purge es) → e.kind = EntityKind.track) ∧
      renderDraws es = trackPass (purge es) ++ gamePass (purge es) := by
  refine ⟨?_, ?_, rfl⟩
  · intro e he
    have hmem : e ∈ (purge es).filter (fun e => !(e.kind = EntityKind.track)) :=
      ((List.perm_insertionSort zDesc _).mem_iff).mp he
    have hpred := (List.mem_filter.mp hmem).2
    simpa using hpred
  · intro e he
    unfold trackPass at he
    cases hfind : (purge es).find? (fun e => e.kind = EntityKind.track) with
    | none => rw [hfind] at he; simp at he
    | some t =>
        rw [hfind] at he
        simp at he
        subst he
        have := List.find?_some hfind
        simpa using this

/-- Witness for C9 on the concrete list `[entTrack, entGate20]`. -/
theorem C9_witness :
    (entGate20 ∈ gamePass (purge [entTrack, entGate20]) ∧
        entGate20.kind ≠ EntityKind.track) ∧
      (entTrack ∈ trackPass (purge [entTrack, entGate20]) ∧
        entTrack.kind = EntityKind.track) :=
  ⟨⟨by decide, (C9_track_never_depth_sorted [entTrack, entGate20]).1 entGate20 (by decide)⟩,
    ⟨by decide, (C9_track_never_depth_sorted [entTrack, entGate20]).2.1 entTrack (by decide)⟩⟩

/-- C3: one-shot idempotence.  A second `applyEffect` on the gate returned by
a first call is a complete no-op on any player (so the blob count is mutated
at most once); `checkCollision` returns `false` on a consumed gate; and
`checkBlobCollision` returns `false` on a neutralized enemy — in every case
independent of positions, so in particular while still spatially
overlapping. -/
theorem C3_one_shot_idempotence (g : Gate) (p q pl : Player) (e : Enemy)
    (blob : SwarmBlob) (playerY : ℚ) (cam : CameraPose) (bpd : Option PixelData)
    (hg : g.consumed = true) (he : e.consumed = true) :
    (Gate.applyEffect (g.applyEffect p).1 q = ((g.applyEffect p).1, q)) ∧
      Gate.checkCollision g pl = false ∧
      Enemy.checkBlobCollision e blob playerY cam bpd = false := by
  refine ⟨?_, ?_, ?_⟩
  · by_cases hc : (g.consumed : Prop) ∨ g.health > 0
    · simp only [Gate.applyEffect, if_pos hc]
    · simp only [Gate.applyEffect, if_neg hc]
      simp [Gate.applyEffect]
  · unfold Gate.checkCollision
    split
    · rfl
    · next hcond => exact absurd hg hcond
  · unfold Enemy.checkBlobCollision
    split
    · rfl
    · next hcond => exact absurd he hcond

/-- A consumed gate fixture. -/
def gateConsumed : Gate :=
  { x := 0, z := 0, width := 200, value := 5, type := GateType.addition,
    consumed := true, health := 20 }

/-- A neutralized enemy fixture with loaded pixel data. -/
def enemyNeutralized : Enemy :=
  { x := 0, y := 20, z := 0, consumed := true,
    spritePixelData := some { width := 4, height := 4, alpha := fun _ _ => 255 },
    spriteDisplaySize := 120, spriteHeightMultiplier := 1 }

/-- A swarm blob sitting at the world origin. -/
def blobAtOrigin : SwarmBlob := { currentX := 0, currentZ := 0, sizeMultiplier := 1 }

/-- Witness for C3 at a consumed gate, a neutralized (still overlapping)
enemy, and the 5-blob player. -/
theorem C3_witness :
    gateConsumed.consumed = true ∧ enemyNeutralized.consumed = true ∧
      ((Gate.applyEffect (gateConsumed.applyEffect player5).1 player5 =
          ((gateConsumed.applyEffect player5).1, player5)) ∧
        Gate.checkCollision gateConsumed player5 = false ∧
        Enemy.checkBlobCollision enemyNeutralized blobAtOrigin 0 camDemo
          (some { width := 4, height := 4, alpha := fun _ _ => 255 }) = false) :=
  ⟨rfl, rfl,
    C3_one_shot_idempotence gateConsumed player5 player5 player5 enemyNeutralized
      blobAtOrigin 0 camDemo (some { width := 4, height := 4, alpha := fun _ _ => 255 })
      rfl rfl⟩

/-- Addition preserves the floor: `addBlobs` never leaves a negative count. -/
theorem addBlobs_nonneg (p : Player) (c : ℚ) : 0 ≤ (p.addBlobs c).blobCount := by
  show 0 ≤ (if p.blobCount + c < 0 then (0 : ℚ) else p.blobCount + c)
  split
  · exact le_refl 0
  · next h => exact le_of_not_lt h

/-- A multiplication gate with a negative value and depleted health. -/
def gateMulNeg : Gate :=
  { x := 0, z := 0, width := 200, value := -1, type := GateType.multiplication,
    consumed := false, health := 0 }

/-- C4, counterexample: `applyEffect` does NOT clamp the multiplication path —
a depleted multiplication gate of value `-1` applied to a player with 5 blobs
sets `blobCount = Math.floor(5 * -1) = -5`, which is negative.  (The claim's
clamp does hold on the addition path, which goes through `addBlobs`.) -/
theorem C4_counterexample :
    ((gateMulNeg.applyEffect player5).2).blobCount < 0 := by
  have h : ((gateMulNeg.applyEffect player5).2).blobCount = -5 := by
    simp only [Gate.applyEffect, gateMulNeg, player5]
    norm_num
  rw [h]
  norm_num

/-- C4 (amended): the blob count is never negative after `addBlobs` — for
every starting count and argument the result is at least `0`, and
`addBlobs(-1000)` from a count of 5 yields exactly `0`; after
`Gate.applyEffect` the resulting count is nonnegative provided the starting
count is nonnegative and, for a multiplication gate, the gate's value is
nonnegative (all generated multiplication gates have values 2-4) — the
multiplication path itself performs no clamping (see the counterexample). -/
theorem C4_blob_count_floor (p : Player) (c : ℚ) (g : Gate)
    (hp : 0 ≤ p.blobCount)
    (hmul : g.type = GateType.multiplication → 0 ≤ g.value) :
    0 ≤ (p.addBlobs c).blobCount ∧
      (Player.addBlobs { p with blobCount := 5 } (-1000)).blobCount = 0 ∧
      0 ≤ ((g.applyEffect p).2).blobCount := by
  refine ⟨addBlobs_nonneg p c, ?_, ?_⟩
  · show (if (5 : ℚ) + (-1000) < 0 then (0 : ℚ) else 5 + (-1000)) = 0
    norm_num
  · by_cases hc : (g.consumed : Prop) ∨ g.health > 0
    · simp only [Gate.applyEffect, if_pos hc]
      exact hp
    · simp only [Gate.applyEffect, if_neg hc]
      cases htype : g.type with
      | multiplication =>
          simp only [htype]
          show (0 : ℚ) ≤ ((⌊p.blobCount * g.value⌋ : ℤ) : ℚ)
          have hv : 0 ≤ g.value := hmul htype
          have : (0 : ℤ) ≤ ⌊p.blobCount * g.value⌋ :=
            Int.floor_nonneg.mpr (mul_nonneg hp hv)
          exact_mod_cast this
      | addition =>
          simp only [htype]
          exact addBlobs_nonneg p _

/-- A multiplication gate of value 2 with depleted health. -/
def gateMul2 : Gate :=
  { x := 0, z := 0, width := 200, value := 2, type := GateType.multiplication,
    consumed := false, health := 0 }

/-- Witness for C4 at the 5-blob player and the value-2 multiplication
gate. -/
theorem C4_witness :
    0 ≤ player5.blobCount ∧
      (gateMul2.type = GateType.multiplication → 0 ≤ gateMul2.value) ∧
      (0 ≤ (player5.addBlobs (-7)).blobCount ∧
        (Player.addBlobs { player5 with blobCount := 5 } (-1000)).blobCount = 0 ∧
        0 ≤ ((gateMul2.applyEffect player5).2).blobCount) :=
  ⟨by norm_num [player5], fun _ => by norm_num [gateMul2],
    C4_blob_count_floor player5 (-7) gateMul2 (by norm_num [player5])
      (fun _ => by norm_num [gateMul2])⟩

/-- The scenario-A gate: unconsumed, at `z = 0`, `x = 0`, with width
`GATE_WIDTH = 200` (half-width 100). -/
def gateScenarioA : Gate :=
  { x := 0, z := 0, width := 200, value := 5, type := GateType.addition,
    consumed := false, health := 20 }

/-- A player at `z = 0` and lateral position `x` whose single swarm blob
coincides with its center. -/
def playerAtX (x : ℚ) : Player :=
  { x := x, y := 0, z := 0, blobCount := 1,
    swarmBlobs := [{ currentX := x, currentZ := 0, sizeMultiplier := 1 }] }

/-- C6: `Gate.checkCollision` is a camera-independent world-space box test on
the player's center with swarm fallback (its embedding takes no camera at
all): against the unconsumed half-width-100 gate at `z = 0`, the player at
`x = 0, z = 0` collides and the player at `x = 500, z = 0` does not. -/
theorem C6_gate_collision_scenario_A :
    gateScenarioA.checkCollision (playerAtX 0) = true ∧
      gateScenarioA.checkCollision (playerAtX 500) = false := by
  constructor
  · unfold Gate.checkCollision
    rw [if_neg (by simp [gateScenarioA]), if_pos]
    norm_num [gateScenarioA, playerAtX]
  · unfold Gate.checkCollision
    rw [if_neg (by simp [gateScenarioA]), if_neg (by norm_num [gateScenarioA, playerAtX])]
    simp only [playerAtX, gateScenarioA, List.any_cons, List.any_nil]
    norm_num

/-- C10: the lateral-movement step of `Player.update` preserves the track
bounds: from any `x ∈ [-TRACK_WIDTH/2, TRACK_WIDTH/2] = [-200, 200]`, any
input state and any delta time, the updated `x` stays in that interval
(movement is clamped; no movement leaves `x` unchanged). -/
theorem C10_player_x_in_track (x : ℚ) (hasInput left right : Bool) (dt : ℚ)
    (hlo : -(TRACK_WIDTH / 2) ≤ x) (hhi : x ≤ TRACK_WIDTH / 2) :
    -(TRACK_WIDTH / 2) ≤ playerUpdateX x hasInput left right dt ∧
      playerUpdateX x hasInput left right dt ≤ TRACK_WIDTH / 2 := by
  unfold playerUpdateX
  split
  · exact ⟨hlo, hhi⟩
  · show -(TRACK_WIDTH / 2) ≤ (if moveDirection left right ≠ 0 then
          max (-(TRACK_WIDTH / 2)) (min (TRACK_WIDTH / 2)
            (x + moveDirection left right * PLAYER_MOVEMENT_SPEED * dt))
        else x) ∧
      (if moveDirection left right ≠ 0 then
          max (-(TRACK_WIDTH / 2)) (min (TRACK_WIDTH / 2)
            (x + moveDirection left right * PLAYER_MOVEMENT_SPEED * dt))
        else x) ≤ TRACK_WIDTH / 2
    split
    · exact ⟨le_max_left _ _, max_le (by norm_num [TRACK_WIDTH]) (min_le_left _ _)⟩
    · exact ⟨hlo, hhi⟩

/-- Witness for C10: holding left for one second from `x = 100`. -/
theorem C10_witness :
    -(TRACK_WIDTH / 2) ≤ (100 : ℚ) ∧ (100 : ℚ) ≤ TRACK_WIDTH / 2 ∧
      (-(TRACK_WIDTH / 2) ≤ playerUpdateX 100 true true false 1 ∧
        playerUpdateX 100 true true false 1 ≤ TRACK_WIDTH / 2) :=
  ⟨by norm_num [TRACK_WIDTH], by norm_num [TRACK_WIDTH],
    C10_player_x_in_track 100 true true false 1 (by norm_num [TRACK_WIDTH])
      (by norm_num [TRACK_WIDTH])⟩

/-- Unfolding of the queue maintenance step on a non-empty queue. -/
theorem updateMarkerQueue_cons (t : Track) (pz oldest : ℚ) (rest : List ℚ)
    (h : t.markerQueue = oldest :: rest) :
    t.updateMarkerQueue pz =
      if pz - oldest > t.cleanupDistance then
        { t with
            markerQueue := rest ++ [t.nextMarkerZ]
            nextMarkerZ := t.nextMarkerZ + t.markerInterval }
      else t := by
  unfold Track.updateMarkerQueue
  rw [h]

/-- C5: once the marker queue is initialized by the first update with a
player reference, every subsequent update preserves the invariant — the queue
holds exactly the configured maximum of 50 markers, consecutive markers
differ by exactly the configured interval 100.  Moreover `nextMarkerZ` always
sits one interval past the last pushed marker, and on the next update a
marker is evicted precisely when the reference position exceeds the oldest
marker by more than the cleanup distance 500, each such pop being accompanied
by exactly one push of `nextMarkerZ` (= last pushed + interval) at the far
end; otherwise the queue is untouched. -/
theorem C5_track_marker_queue_invariant (pz0 : ℚ) (pzs : List (Option ℚ)) :
    (trackUpdates (trackNew.update (some pz0)) pzs).markerQueue.length = 50 ∧
      List.Chain' (fun a b => b = a + 100)
        (trackUpdates (trackNew.update (some pz0)) pzs).markerQueue ∧
      (∀ L,
        (trackUpdates (trackNew.update (some pz0)) pzs).markerQueue.getLast? = some L →
          (trackUpdates (trackNew.update (some pz0)) pzs).nextMarkerZ = L + 100) ∧
      (∀ pz oldest,
        (trackUpdates (trackNew.update (some pz0)) pzs).markerQueue.head? = some oldest →
          ((pz - oldest > 500 →
              ((trackUpdates (trackNew.update (some pz0)) pzs).update (some pz)).markerQueue =
                (trackUpdates (trackNew.update (some pz0)) pzs).markerQueue.tail ++
                  [(trackUpdates (trackNew.update (some pz0)) pzs).nextMarkerZ]) ∧
            (¬ pz - oldest > 500 →
              ((trackUpdates (trackNew.update (some pz0)) pzs).update (some pz)).markerQueue =
                (trackUpdates (trackNew.update (some pz0)) pzs).markerQueue))) := by
  set t := trackUpdates (trackNew.update (some pz0)) pzs with ht
  have hg : t.good := trackUpdates_good (first_update_good pz0) pzs
  obtain ⟨hin, hmax, hint, hclean, s, hq, hn⟩ := hg
  refine ⟨?_, ?_, ?_, ?_⟩
  · rw [hq]
    exact arithList_length 100 50 s
  · rw [hq]
    exact arithList_chain 100 50 s
  · intro L hL
    have h50 : (49 : ℕ) + 1 = 50 := rfl
    have h49 := arithList_getLast 100 49 s
    rw [h50] at h49
    rw [hq, h49] at hL
    have hL' : L = s + (49 : ℕ) * 100 := (Option.some.inj hL).symm
    rw [hn, hL']
    push_cast
    ring
  · intro pz oldest hhead
    have hq' : t.markerQueue = s :: arithList (s + 100) 100 49 := by rw [hq]; rfl
    rw [hq'] at hhead
    have hold : oldest = s := (Option.some.inj hhead).symm
    subst hold
    have hupd : t.update (some pz) = t.updateMarkerQueue pz := by
      show (if t.inited then t
        else { t.initMarkers pz with inited := true }).updateMarkerQueue pz
          = t.updateMarkerQueue pz
      rw [hin]
      rfl
    have hcons := updateMarkerQueue_cons t pz oldest (arithList (oldest + 100) 100 49) hq'
    constructor
    · intro hgt
      rw [hupd, hcons, if_pos (show pz - oldest > t.cleanupDistance by rw [hclean]; exact hgt)]
      rw [hq']
      rfl
    · intro hle
      rw [hupd, hcons, if_neg (show ¬ pz - oldest > t.cleanupDistance by rw [hclean]; exact hle)]

/-- Concrete first tick: after the first update with the player at `z = 0`,
the queue is the 50-marker progression starting at `-500` (no eviction on the
same tick: `0 - (-500) = 500` does not exceed 500) and `nextMarkerZ = 4500`. -/
theorem track_first_tick_eval :
    (trackNew.update (some 0)).markerQueue = arithList (-500) 100 50 ∧
      (trackNew.update (some 0)).nextMarkerZ = 4500 := by
  have hI : trackNew.markerInterval = 100 := by norm_num [trackNew, METERS_PER_PIXEL]
  have hC : trackNew.cleanupDistance = 500 := by norm_num [trackNew, METERS_PER_PIXEL]
  have hstart : ((⌊(0 : ℚ) / trackNew.markerInterval⌋ : ℤ) : ℚ) * trackNew.markerInterval
      - 5 * trackNew.markerInterval = -500 := by
    rw [hI]; norm_num
  have hq : ({ trackNew.initMarkers 0 with inited := true } : Track).markerQueue
      = arithList (-500) 100 50 := by
    show trackNew.markerQueue ++ (spawnMarkers trackNew.maxMarkers
        (((⌊(0 : ℚ) / trackNew.markerInterval⌋ : ℤ) : ℚ) * trackNew.markerInterval
          - 5 * trackNew.markerInterval) trackNew.markerInterval).1
      = arithList (-500) 100 50
    rw [hstart, hI, spawnMarkers_eq]
    rfl
  have hn : ({ trackNew.initMarkers 0 with inited := true } : Track).nextMarkerZ = 4500 := by
    show (spawnMarkers trackNew.maxMarkers
        (((⌊(0 : ℚ) / trackNew.markerInterval⌋ : ℤ) : ℚ) * trackNew.markerInterval
          - 5 * trackNew.markerInterval) trackNew.markerInterval).2 = 4500
    rw [hstart, hI, spawnMarkers_eq]
    show (-500 : ℚ) + (trackNew.maxMarkers : ℚ) * 100 = 4500
    norm_num [trackNew]
  have hshape : ({ trackNew.initMarkers 0 with inited := true } : Track).markerQueue
      = (-500) :: arithList ((-500) + 100) 100 49 := by rw [hq]; rfl
  have hnoev := updateMarkerQueue_cons { trackNew.initMarkers 0 with inited := true } 0
    (-500) (arithList ((-500) + 100) 100 49) hshape
  rw [if_neg (by rw [show ({ trackNew.initMarkers 0 with inited := true } : Track).cleanupDistance
    = 500 from hC]; norm_num)] at hnoev
  have hfirst : trackNew.update (some 0)
      = Track.updateMarkerQueue { trackNew.initMarkers 0 with inited := true } 0 := rfl
  rw [hfirst, hnoev]
  exact ⟨hq, hn⟩

/-- Witness for C5 after the first tick at `z = 0` and an eviction probe at
`z = 600`. -/
theorem C5_witness :
    ((trackUpdates (trackNew.update (some 0)) []).markerQueue.getLast? = some 4400 ∧
        (trackUpdates (trackNew.update (some 0)) []).markerQueue.head? = some (-500) ∧
        (600 : ℚ) - (-500) > 500) ∧
      ((trackUpdates (trackNew.update (some 0)) []).nextMarkerZ = 4400 + 100 ∧
        ((trackUpdates (trackNew.update (some 0)) []).update (some 600)).markerQueue =
          (trackUpdates (trackNew.update (some 0)) []).markerQueue.tail ++
            [(trackUpdates (trackNew.update (some 0)) []).nextMarkerZ]) := by
  have hq : (trackUpdates (trackNew.update (some 0)) []).markerQueue
      = arithList (-500) 100 50 := track_first_tick_eval.1
  have hlast : (trackUpdates (trackNew.update (some 0)) []).markerQueue.getLast?
      = some 4400 := by
    rw [hq]
    have h50 : (49 : ℕ) + 1 = 50 := rfl
    have h49 := arithList_getLast 100 49 (-500)
    rw [h50] at h49
    rw [h49]
    norm_num
  have hhead : (trackUpdates (trackNew.update (some 0)) []).markerQueue.head?
      = some (-500) := by
    rw [hq]
    rfl
  exact ⟨⟨hlast, hhead, by norm_num⟩,
    (C5_track_marker_queue_invariant 0 []).2.2.1 4400 hlast,
    ((C5_track_marker_queue_invariant 0 []).2.2.2 600 (-500) hhead).1 (by norm_num)⟩

end BlobArmy
